import Mathlib

/-!
Shallow embedding of the task-scheduling engine of `src/core/system_manager.py`
(repository `dwh_budilder`).  Timestamps (`datetime`) are modelled as `Int`
seconds; the opaque work callable of a task is modelled by passing the outcome
of one invocation (`succeeds : Bool`, optional payload, elapsed seconds) as
explicit arguments; Python's thread locks disappear because the embedding is
explicit state passing.  Dictionaries (`self.tasks`, `self.results`) are
association lists in insertion order, exactly the iteration order of a Python
`dict`.
-/

namespace Dwh

/-- `TaskStatus` enum of `system_manager.py` (lines 15-21). -/
inductive TaskStatus where
  | pending
  | running
  | completed
  | failed
  | retry
  | cancelled
deriving DecidableEq, Repr

/-- `TaskResult` dataclass (lines 24-30); `data` is an opaque payload, modelled
as `Option Int`. -/
structure TaskResult where
  success : Bool
  data : Option Int
  error : Option String
  timestamp : Int
  execution_time : Option Int
deriving DecidableEq, Repr

/-- The state of a `Task` object (lines 33-49).  The opaque callable
`func`/`args`/`kwargs` is not part of the state; `task_id` models `id(self)`,
an arbitrary machine-chosen identifier. -/
structure Task where
  name : String
  status : TaskStatus
  max_retries : Nat
  retry_count : Nat
  priority : Int
  created_at : Int
  last_run : Option Int
  next_retry : Option Int
  task_id : Nat
deriving DecidableEq, Repr

/-- `Task.__init__` (lines 34-49): fresh task with status `PENDING`,
`retry_count = 0`, `last_run = next_retry = None`, `created_at = now`. -/
def mkTask (name : String) (max_retries : Nat) (priority : Int) (now : Int)
    (task_id : Nat) : Task :=
  { name := name
    status := TaskStatus.pending
    max_retries := max_retries
    retry_count := 0
    priority := priority
    created_at := now
    last_run := none
    next_retry := none
    task_id := task_id }

/-- `Task.__lt__` (lines 51-55): a `<` b means a is popped before b.  Higher
priority first; for equal priorities, smaller `task_id` first. -/
def Task.lt (a b : Task) : Bool :=
  if a.priority ≠ b.priority then decide (a.priority > b.priority)
  else decide (a.task_id < b.task_id)

/-- `PriorityTaskWrapper` (lines 58-63): a queue entry pairing a task with its
`schedule_time` (defaulting to `now` at construction). -/
structure PriorityTaskWrapper where
  task : Task
  schedule_time : Int
deriving DecidableEq, Repr

/-- `PriorityTaskWrapper.__lt__` (lines 65-70): entries are compared by
`schedule_time` first, then by `Task.__lt__`. -/
def PriorityTaskWrapper.lt (a b : PriorityTaskWrapper) : Bool :=
  if a.schedule_time ≠ b.schedule_time then decide (a.schedule_time < b.schedule_time)
  else Task.lt a.task b.task

/-- The successive values assigned to `task.status` by `execute_task`
(lines 121, 133, 149): `RUNNING` at entry, then `COMPLETED` on success or
`FAILED` when the work raises. -/
def execute_task_statuses (succeeds : Bool) : List TaskStatus :=
  [TaskStatus.running, if succeeds then TaskStatus.completed else TaskStatus.failed]

/-- `execute_task` (lines 115-159) restricted to the task object it mutates and
the `TaskResult` it returns.  The opaque invocation of `task.func` is summarised
by `succeeds` (did it return or raise), `d` (its return value) and `elapsed`
(wall-clock seconds it took); `now` is `datetime.now()` at entry. -/
def execute_task (task : Task) (succeeds : Bool) (d : Option Int) (now : Int)
    (elapsed : Int) : Task × TaskResult :=
  let t1 : Task := { task with status := TaskStatus.running, last_run := some now }
  if succeeds then
    ({ t1 with status := TaskStatus.completed },
     { success := true
       data := d
       error := none
       timestamp := now
       execution_time := some elapsed })
  else
    ({ t1 with status := TaskStatus.failed },
     { success := false
       data := none
       error := some "error"
       timestamp := now
       execution_time := some elapsed })

/-- An entry of `self.task_queue` as seen by the manager-level model: the name
of the (shared, registry-resident) task plus the entry's `schedule_time`. -/
structure QueueEntry where
  taskName : String
  schedule_time : Int
deriving DecidableEq, Repr

/-- `handle_failed_task` (lines 161-201): its effect on the task and the queue
entry it enqueues (if any).  `shutdown` is the state of `self.shutdown_event`;
the source reads it twice (lines 164 and 177), which in this sequential model
is the same value both times. -/
def handle_failed_task (task : Task) (now : Int) (shutdown : Bool) :
    Task × Option QueueEntry :=
  if task.retry_count < task.max_retries ∧ shutdown = false then
    let rc := task.retry_count + 1
    let delay : Int := min ((2 : Int) ^ rc) 300
    let retryTime := now + delay
    let t : Task := { task with
      retry_count := rc
      status := TaskStatus.retry
      next_retry := some retryTime }
    if shutdown = false then
      (t, some { taskName := task.name, schedule_time := retryTime })
    else
      ({ t with status := TaskStatus.failed }, none)
  else
    ({ task with status := TaskStatus.failed }, none)

/-- First-match association-list lookup, the model of Python `dict` access. -/
def lookup {α : Type} : List (String × α) → String → Option α
  | [], _ => none
  | p :: l, k => if p.1 = k then some p.2 else lookup l k

/-- The mutable state of a `SystemManager` (lines 73-91) that the embedded
operations touch. -/
structure SystemManager where
  tasks : List (String × Task)
  task_queue : List QueueEntry
  results : List (String × TaskResult)
  running : Bool
  shutdown_event : Bool
  active_tasks_count : Int
deriving DecidableEq, Repr

/-- `SystemManager.__init__`: empty registry, empty queue, not running. -/
def initManager : SystemManager :=
  { tasks := [], task_queue := [], results := [], running := false,
    shutdown_event := false, active_tasks_count := 0 }

/-- `add_task` (lines 93-113): reject a duplicate name with `False` and no
side effect; otherwise create the task, append it to the registry and enqueue
a wrapper whose `schedule_time` defaults to `now`, returning `True`. -/
def add_task (mgr : SystemManager) (name : String) (max_retries : Nat)
    (priority : Int) (now : Int) (task_id : Nat) : SystemManager × Bool :=
  if (lookup mgr.tasks name).isSome then (mgr, false)
  else
    ({ mgr with
       tasks := mgr.tasks ++ [(name, mkTask name max_retries priority now task_id)]
       task_queue := mgr.task_queue ++ [{ taskName := name, schedule_time := now }] },
     true)

/-- Publication of an in-place mutation of the shared `Task` object: the
registry binding of `name` now shows state `t`.  (In Python the registry and
every queue wrapper alias one object, so mutation needs no explicit store;
in the pure model the registry is the authoritative copy.) -/
def setTask (mgr : SystemManager) (name : String) (t : Task) : SystemManager :=
  { mgr with tasks := mgr.tasks.map (fun p => if p.1 = name then (p.1, t) else p) }

/-- `self.results[task.name] = result` (line 233): overwrite or append. -/
def storeResult (mgr : SystemManager) (name : String) (r : TaskResult) :
    SystemManager :=
  if (lookup mgr.results name).isSome then
    { mgr with results := mgr.results.map (fun p => if p.1 = name then (p.1, r) else p) }
  else
    { mgr with results := mgr.results ++ [(name, r)] }

/-- `cancel_task` (lines 297-311): `False` when the name is unknown or the
status is outside `{PENDING, RETRY}`; otherwise set `CANCELLED`, return
`True`. -/
def cancel_task (mgr : SystemManager) (name : String) : SystemManager × Bool :=
  match lookup mgr.tasks name with
  | none => (mgr, false)
  | some task =>
    if task.status = TaskStatus.pending ∨ task.status = TaskStatus.retry then
      (setTask mgr name { task with status := TaskStatus.cancelled }, true)
    else
      (mgr, false)

/-- The removal test of `clear_completed_tasks` (lines 434-435): terminal
status, `last_run` non-null, and `last_run < cutoff_time`. -/
def shouldClear (cutoff : Int) (task : Task) : Bool :=
  (decide (task.status = TaskStatus.completed) ||
   decide (task.status = TaskStatus.failed) ||
   decide (task.status = TaskStatus.cancelled)) &&
  (match task.last_run with
   | some lr => decide (lr < cutoff)
   | none => false)

/-- `clear_completed_tasks` (lines 425-447): drop every registry entry passing
`shouldClear` (cutoff `now - older_than_hours` hours), drop their stored
results, and return the number of tasks removed. -/
def clear_completed_tasks (mgr : SystemManager) (now : Int)
    (older_than_hours : Int) : SystemManager × Nat :=
  let cutoff := now - older_than_hours * 3600
  let toRemove := (mgr.tasks.filter (fun p => shouldClear cutoff p.2)).map Prod.fst
  ({ mgr with
     tasks := mgr.tasks.filter (fun p => !shouldClear cutoff p.2)
     results := mgr.results.filter (fun p => !toRemove.contains p.1) },
   toRemove.length)

/-- What one iteration of `process_tasks` (lines 207-239) decides to do with
the entry it popped. -/
inductive DispatchAction where
  | skipCancelled
  | requeueNotDue
  | run
deriving DecidableEq, Repr

/-- One iteration of the dispatcher loop `process_tasks` (lines 210-229),
viewed on the popped task: a `CANCELLED` task is discarded without invoking
its work (lines 214-216); a `RETRY` task whose `schedule_time` is still in the
future is pushed back (lines 219-226); otherwise the task is executed. -/
def process_entry (task : Task) (schedule_time now : Int) (succeeds : Bool)
    (d : Option Int) (elapsed : Int) : Task × Option TaskResult × DispatchAction :=
  if task.status = TaskStatus.cancelled then
    (task, none, DispatchAction.skipCancelled)
  else if task.status = TaskStatus.retry ∧ schedule_time > now then
    (task, none, DispatchAction.requeueNotDue)
  else
    let r := execute_task task succeeds d now elapsed
    (r.1, some r.2, DispatchAction.run)

/-- Dispatcher + retry policy run to quiescence on a single task whose work
fails on every invocation and with the shutdown signal never set: each round
is `execute_task` (failing) followed by `handle_failed_task`; the run proceeds
to the enqueued retry entry's `schedule_time` (the dispatcher re-queues the
entry until that time is reached, lines 219-226) and stops when no retry is
enqueued.  The second component counts invocations of the work.  `fuel` bounds
the recursion; any `fuel ≥ max_retries + 1 - retry_count` is enough. -/
def runAlwaysFailing : Nat → Task → Int → Task × Nat
  | 0, task, _ => (task, 0)
  | fuel + 1, task, now =>
    let t1 := (execute_task task false none now 0).1
    let h := handle_failed_task t1 now false
    match h.2 with
    | none => (h.1, 1)
    | some e =>
      let r := runAlwaysFailing fuel h.1 e.schedule_time
      (r.1, r.2 + 1)

/-- The dictionary built by `get_task_status` (lines 313-341). -/
structure TaskStatusView where
  name : String
  status : TaskStatus
  retry_count : Nat
  max_retries : Nat
  priority : Int
  created_at : Int
  last_run : Option Int
  next_retry : Option Int
  result : Option TaskResult
deriving DecidableEq, Repr

/-- `get_task_status` (lines 313-341): `none` models the `{"error": ...}`
not-found reply; otherwise a snapshot of the task plus the latest stored
result. -/
def get_task_status (mgr : SystemManager) (name : String) : Option TaskStatusView :=
  match lookup mgr.tasks name with
  | none => none
  | some task =>
    some { name := task.name
           status := task.status
           retry_count := task.retry_count
           max_retries := task.max_retries
           priority := task.priority
           created_at := task.created_at
           last_run := task.last_run
           next_retry := task.next_retry
           result := lookup mgr.results name }

/-- `executor.shutdown(wait=True)` (line 291) returns once every pool thread
has finished.  Given the residual running times of the pool's activities
(`none` = never finishes, e.g. a thread stuck inside a work callable that
never returns), the join finishes after the maximum, and never when any
activity never finishes. -/
def joinAll : List (Option Int) → Option Int
  | [] => some 0
  | d :: rest =>
    match d, joinAll rest with
    | some a, some b => some (max a b)
    | _, _ => none

/-- Time model of `stop(timeout)` (lines 265-295).  `running` is the flag at
entry; `activeDrain` (resp. `queueDrain`) is how long the active-task counter
(resp. the queue) takes to drain, each wait being capped at `timeout / 2`
(lines 277, 284); `inflight` are the residual running times of the executor's
threads.  Result: the elapsed time after which `stop` returns (`none` = it
never returns, because `executor.shutdown(wait=True)` joins a thread that
never finishes) and the value of `self.running` after the call (set `False`
at line 272 before any waiting, so `False` even if the join hangs). -/
def stopModel (running : Bool) (timeout : Int) (activeDrain queueDrain : Int)
    (inflight : List (Option Int)) : Option Int × Bool :=
  if running = false then (some 0, running)
  else
    match joinAll inflight with
    | some j =>
      (some (min activeDrain (timeout / 2) + min queueDrain (timeout / 2) + j), false)
    | none => (none, false)

/-! ### Association-list helper lemmas -/

theorem lookup_none_forall {α : Type} {l : List (String × α)} {k : String}
    (h : lookup l k = none) : ∀ p ∈ l, p.1 ≠ k := by
  induction l with
  | nil => simp
  | cons p l ih =>
    intro q hq
    by_cases hp : p.1 = k
    · simp [lookup, hp] at h
    · simp [lookup, hp] at h
      rcases List.mem_cons.mp hq with hq | hq
      · subst hq; exact hp
      · exact ih h q hq

theorem lookup_append_right {α : Type} {l : List (String × α)} {k : String} (v : α)
    (h : ∀ p ∈ l, p.1 ≠ k) : lookup (l ++ [(k, v)]) k = some v := by
  induction l with
  | nil => simp [lookup]
  | cons p l ih =>
    have hp : p.1 ≠ k := h p (by simp)
    simp only [List.cons_append, lookup, hp, if_neg hp]
    exact ih fun q hq => h q (by simp [hq])

theorem lookup_map_replace {α : Type} {l : List (String × α)} {k : String} {v : α}
    (t : α) (h : lookup l k = some v) :
    lookup (l.map (fun p => if p.1 = k then (p.1, t) else p)) k = some t := by
  induction l with
  | nil => simp [lookup] at h
  | cons p l ih =>
    by_cases hp : p.1 = k
    · simp [lookup, hp]
    · simp only [lookup, if_neg hp] at h
      simp [lookup, hp, ih h]

theorem map_replace_of_ne {α : Type} {l : List (String × α)} {k : String} (t : α)
    (h : ∀ p ∈ l, p.1 ≠ k) :
    l.map (fun p => if p.1 = k then (p.1, t) else p) = l := by
  induction l with
  | nil => rfl
  | cons p l ih =>
    have hp : p.1 ≠ k := h p (by simp)
    simp only [List.map_cons, if_neg hp]
    rw [ih fun q hq => h q (by simp [hq])]

/-! ### C1 — queue ordering -/

/-- Low-priority entry, enqueued at time 0. -/
def c1w1 : PriorityTaskWrapper :=
  { task := mkTask "a" 3 0 0 0, schedule_time := 0 }

/-- High-priority entry, enqueued at time 1 (so `created_at = 1`). -/
def c1w2 : PriorityTaskWrapper :=
  { task := mkTask "b" 3 5 1 1, schedule_time := 1 }

/-- Claim C1 (counterexample): at time 2 both entries are ready
(`schedule_time ≤ 2`) and `c1w2` has the strictly higher priority, yet the
queue's comparison pops `c1w1` first: `PriorityTaskWrapper.__lt__` compares
`schedule_time` before priority, so among ready entries with distinct schedule
times the earlier-scheduled, lower-priority entry wins. -/
theorem c1_counterexample :
    c1w1.schedule_time ≤ 2 ∧ c1w2.schedule_time ≤ 2 ∧
    c1w1.task.priority < c1w2.task.priority ∧
    PriorityTaskWrapper.lt c1w1 c1w2 = true ∧
    PriorityTaskWrapper.lt c1w2 c1w1 = false := by
  decide

/-- Claim C1 (amended): for every pair of ready entries (`schedule_time ≤ now`
for both), the queue's comparison orders them by `schedule_time` first
(strictly earlier pops first, regardless of priority); only between entries
with equal `schedule_time` does the higher task priority win, and among equal
priorities the tie is broken by smaller `task_id` (the machine-chosen object
identifier), not by `created_at`. -/
theorem c1_queue_ordering (a b : PriorityTaskWrapper) (now : Int)
    (_ha : a.schedule_time ≤ now) (_hb : b.schedule_time ≤ now) :
    (a.schedule_time < b.schedule_time → PriorityTaskWrapper.lt a b = true) ∧
    (a.schedule_time = b.schedule_time → b.task.priority < a.task.priority →
      PriorityTaskWrapper.lt a b = true) ∧
    (a.schedule_time = b.schedule_time → a.task.priority = b.task.priority →
      PriorityTaskWrapper.lt a b = decide (a.task.task_id < b.task.task_id)) := by
  refine ⟨?_, ?_, ?_⟩
  · intro h
    simp [PriorityTaskWrapper.lt, h.ne, h]
  · intro h hp
    simp [PriorityTaskWrapper.lt, h, Task.lt, hp.ne', hp]
  · intro h hp
    simp [PriorityTaskWrapper.lt, h, Task.lt, hp]

/-- Witness for `c1_queue_ordering` at the concrete ready pair
`c1w1`, `c1w2` with `now = 2`. -/
theorem c1_queue_ordering_witness : PriorityTaskWrapper.lt c1w1 c1w2 = true :=
  (c1_queue_ordering c1w1 c1w2 2 (by decide) (by decide)).1 (by decide)

/-! ### C2 — retry policy -/

/-- A fresh task (`retry_count = 0`, `max_retries = 3`). -/
def c2task : Task := mkTask "t" 3 0 0 0

/-- Claim C2: on a failed attempt with `retry_count < max_retries` and the
shutdown signal clear, `handle_failed_task` increments `retry_count` by one,
sets status `RETRY`, sets `next_retry = now + min(2^retry_count, 300)` seconds
computed with the incremented count, and enqueues an entry with
`schedule_time = next_retry`; with retries exhausted, or with the shutdown
signal set, it sets status `FAILED` and enqueues nothing. -/
theorem c2_retry_policy (task : Task) (now : Int) :
    (task.retry_count < task.max_retries →
      handle_failed_task task now false =
        ({ task with
            retry_count := task.retry_count + 1
            status := TaskStatus.retry
            next_retry := some (now + min ((2 : Int) ^ (task.retry_count + 1)) 300) },
         some { taskName := task.name
                schedule_time := now + min ((2 : Int) ^ (task.retry_count + 1)) 300 })) ∧
    (task.max_retries ≤ task.retry_count →
      handle_failed_task task now false = ({ task with status := TaskStatus.failed }, none)) ∧
    handle_failed_task task now true = ({ task with status := TaskStatus.failed }, none) := by
  refine ⟨?_, ?_, ?_⟩
  · intro h
    simp [handle_failed_task, h]
  · intro h
    simp [handle_failed_task, Nat.not_lt.mpr h]
  · simp [handle_failed_task]

/-- Witness for `c2_retry_policy`: the fresh task `c2task` failing at time 5
is rescheduled for time `5 + min(2^1, 300) = 7`; with the shutdown signal set
it is marked `FAILED` instead. -/
theorem c2_retry_policy_witness :
    handle_failed_task c2task 5 false =
      ({ c2task with
          retry_count := c2task.retry_count + 1
          status := TaskStatus.retry
          next_retry := some (5 + min ((2 : Int) ^ (c2task.retry_count + 1)) 300) },
       some { taskName := c2task.name
              schedule_time := 5 + min ((2 : Int) ^ (c2task.retry_count + 1)) 300 }) ∧
    handle_failed_task c2task 5 true = ({ c2task with status := TaskStatus.failed }, none) :=
  ⟨(c2_retry_policy c2task 5).1 (by decide), (c2_retry_policy c2task 5).2.2⟩

/-! ### Step lemmas for `execute_task` and `handle_failed_task` -/

theorem execute_task_fail (task : Task) (d : Option Int) (now elapsed : Int) :
    (execute_task task false d now elapsed).1 =
      { task with status := TaskStatus.failed, last_run := some now } := rfl

theorem execute_task_success (task : Task) (d : Option Int) (now elapsed : Int) :
    execute_task task true d now elapsed =
      ({ task with status := TaskStatus.completed, last_run := some now },
       { success := true
         data := d
         error := none
         timestamp := now
         execution_time := some elapsed }) := rfl

theorem handle_failed_retry (task : Task) (now : Int)
    (h : task.retry_count < task.max_retries) :
    handle_failed_task task now false =
      ({ task with
          retry_count := task.retry_count + 1
          status := TaskStatus.retry
          next_retry := some (now + min ((2 : Int) ^ (task.retry_count + 1)) 300) },
       some { taskName := task.name
              schedule_time := now + min ((2 : Int) ^ (task.retry_count + 1)) 300 }) := by
  simp [handle_failed_task, h]

theorem handle_failed_exhausted (task : Task) (now : Int)
    (h : task.max_retries ≤ task.retry_count) :
    handle_failed_task task now false = ({ task with status := TaskStatus.failed }, none) := by
  simp [handle_failed_task, Nat.not_lt.mpr h]

theorem handle_failed_shutdown (task : Task) (now : Int) :
    handle_failed_task task now true = ({ task with status := TaskStatus.failed }, none) := by
  simp [handle_failed_task]

/-! ### C3 — exhaustion -/

/-- Running an always-failing task to quiescence from any point with
`retry_count ≤ max_retries`: with fuel `max_retries + 1 - retry_count` (which
is exactly the number of remaining invocations), the task ends `FAILED` with
`retry_count = max_retries`, and the work is invoked `fuel` times. -/
theorem runAlwaysFailing_spec (fuel : Nat) :
    ∀ (task : Task) (now : Int),
      task.retry_count + fuel = task.max_retries + 1 →
      task.retry_count ≤ task.max_retries →
      (runAlwaysFailing fuel task now).1.status = TaskStatus.failed ∧
      (runAlwaysFailing fuel task now).1.retry_count = task.max_retries ∧
      (runAlwaysFailing fuel task now).2 = fuel := by
  induction fuel with
  | zero => intro task now h1 h2; omega
  | succ k ih =>
    intro task now h1 h2
    by_cases hlt : task.retry_count < task.max_retries
    · have hfail := execute_task_fail task none now 0
      have hh := handle_failed_retry
        { task with status := TaskStatus.failed, last_run := some now } now (by simpa using hlt)
      simp only [runAlwaysFailing, hfail, hh]
      have := ih
        { task with
            status := TaskStatus.retry
            last_run := some now
            retry_count := task.retry_count + 1
            next_retry := some (now + min ((2 : Int) ^ (task.retry_count + 1)) 300) }
        (now + min ((2 : Int) ^ (task.retry_count + 1)) 300)
        (by simpa using by omega)
        (by simpa using by omega)
      exact ⟨this.1, by simpa using this.2.1, by simpa using this.2.2⟩
    · have hrc : task.retry_count = task.max_retries := by omega
      have hk : k = 0 := by omega
      subst hk
      have hfail := execute_task_fail task none now 0
      have hh := handle_failed_exhausted
        { task with status := TaskStatus.failed, last_run := some now } now
        (by simpa using Nat.le_of_eq hrc.symm)
      simp only [runAlwaysFailing, hfail, hh]
      exact ⟨trivial, hrc, trivial⟩

/-- Always-failing task with `max_retries = 1`. -/
def c3task : Task := mkTask "f" 1 0 0 0

/-- Claim C3 (counterexample): a task with `max_retries = 1` whose work always
fails is executed twice — the initial attempt plus one retry — not
`max_retries = 1` times as the claim states; giving the run extra fuel does not
change the count (the run is quiescent after the second invocation). -/
theorem c3_counterexample :
    (runAlwaysFailing 2 c3task 0).2 = 2 ∧
    (runAlwaysFailing 10 c3task 0).2 = 2 ∧
    c3task.max_retries = 1 ∧
    (runAlwaysFailing 2 c3task 0).1.status = TaskStatus.failed ∧
    (runAlwaysFailing 2 c3task 0).1.retry_count = 1 := by
  decide

/-- Claim C3 (amended): a task whose work fails on every invocation, run to
quiescence by the dispatcher and retry policy with no shutdown intervening,
ends with status `FAILED` and `retry_count = max_retries`, and its work is
invoked exactly `max_retries + 1` times (the initial attempt plus
`max_retries` retries). -/
theorem c3_exhaustion (task : Task) (now : Int) (h0 : task.retry_count = 0) :
    (runAlwaysFailing (task.max_retries + 1) task now).1.status = TaskStatus.failed ∧
    (runAlwaysFailing (task.max_retries + 1) task now).1.retry_count = task.max_retries ∧
    (runAlwaysFailing (task.max_retries + 1) task now).2 = task.max_retries + 1 :=
  runAlwaysFailing_spec (task.max_retries + 1) task now (by omega) (by omega)

/-- Witness for `c3_exhaustion`: a fresh task with `max_retries = 3` is
invoked 4 times and ends `FAILED` with `retry_count = 3`. -/
theorem c3_exhaustion_witness :
    (runAlwaysFailing 4 (mkTask "g" 3 0 0 0) 0).1.status = TaskStatus.failed ∧
    (runAlwaysFailing 4 (mkTask "g" 3 0 0 0) 0).1.retry_count = 3 ∧
    (runAlwaysFailing 4 (mkTask "g" 3 0 0 0) 0).2 = 4 :=
  c3_exhaustion (mkTask "g" 3 0 0 0) 0 rfl

/-! ### C4 — status state machine -/

/-- A fresh pending task with retries remaining. -/
def c4task : Task := mkTask "t" 3 0 0 0

/-- Claim C4 (counterexample): a reachable failing attempt with retries
remaining and no shutdown does not move the status directly from `RUNNING` to
`RETRY`: `execute_task` assigns `RUNNING` and then `FAILED` (line 149), and it
is `handle_failed_task` that afterwards moves the task from `FAILED` to
`RETRY` — a step that changes a `FAILED` task's status, refuting both the
direct-transition part and the Failed-is-terminal part of the claim. -/
theorem c4_counterexample :
    execute_task_statuses false = [TaskStatus.running, TaskStatus.failed] ∧
    (execute_task c4task false none 0 0).1.status = TaskStatus.failed ∧
    (execute_task c4task false none 0 0).1.retry_count <
      (execute_task c4task false none 0 0).1.max_retries ∧
    (handle_failed_task (execute_task c4task false none 0 0).1 0 false).1.status =
      TaskStatus.retry := by
  decide

/-- Claim C4 (amended): on a failing attempt with retries remaining and no
shutdown the status path is `RUNNING → FAILED → RETRY`: `execute_task` assigns
`RUNNING` then `FAILED`, and `handle_failed_task` then moves the `FAILED` task
to `RETRY`.  `FAILED` is terminal only for exhausted (or shutdown-time)
failures: `handle_failed_task` then leaves the status `FAILED`, and
`cancel_task` never changes a `FAILED` task. -/
theorem c4_state_machine (task : Task) (d : Option Int) (now elapsed : Int) :
    execute_task_statuses false = [TaskStatus.running, TaskStatus.failed] ∧
    (execute_task task false d now elapsed).1.status = TaskStatus.failed ∧
    (task.retry_count < task.max_retries →
      (handle_failed_task (execute_task task false d now elapsed).1 now false).1.status =
        TaskStatus.retry) ∧
    (∀ t : Task, t.max_retries ≤ t.retry_count → ∀ (n : Int) (sh : Bool),
      (handle_failed_task t n sh).1.status = TaskStatus.failed) ∧
    (∀ (mgr : SystemManager) (name : String) (t : Task),
      lookup mgr.tasks name = some t → t.status = TaskStatus.failed →
      cancel_task mgr name = (mgr, false)) := by
  refine ⟨rfl, rfl, ?_, ?_, ?_⟩
  · intro h
    rw [execute_task_fail,
      handle_failed_retry { task with status := TaskStatus.failed, last_run := some now } now
        (by simpa using h)]
  · intro t ht n sh
    cases sh
    · rw [handle_failed_exhausted t n ht]
    · rw [handle_failed_shutdown t n]
  · intro mgr name t hl hs
    simp [cancel_task, hl, hs]

/-- Witness for `c4_state_machine`: the concrete failing attempt on `c4task`
is moved from `FAILED` to `RETRY` by `handle_failed_task`. -/
theorem c4_state_machine_witness :
    (handle_failed_task (execute_task c4task false none 0 0).1 0 false).1.status =
      TaskStatus.retry :=
  (c4_state_machine c4task none 0 0).2.2.1 (by decide)

/-! ### C5 — cancellation -/

/-- A manager holding one freshly added (hence `PENDING`) task `"p"`. -/
def c5mgr : SystemManager := (add_task initManager "p" 3 0 0 0).1

/-- Claim C5: `cancel_task` returns `false` and changes nothing when the name
is unknown or the status is outside `{PENDING, RETRY}`; on a `PENDING` or
`RETRY` task it sets `CANCELLED` and returns `true`; and the dispatcher
discards a popped entry whose task is `CANCELLED` without invoking its work
(no `TaskResult` is produced). -/
theorem c5_cancellation (mgr : SystemManager) (name : String) :
    (lookup mgr.tasks name = none → cancel_task mgr name = (mgr, false)) ∧
    (∀ task : Task, lookup mgr.tasks name = some task →
      task.status ≠ TaskStatus.pending → task.status ≠ TaskStatus.retry →
      cancel_task mgr name = (mgr, false)) ∧
    (∀ task : Task, lookup mgr.tasks name = some task →
      task.status = TaskStatus.pending ∨ task.status = TaskStatus.retry →
      cancel_task mgr name =
        (setTask mgr name { task with status := TaskStatus.cancelled }, true) ∧
      lookup (cancel_task mgr name).1.tasks name =
        some { task with status := TaskStatus.cancelled }) ∧
    (∀ (task : Task) (st now elapsed : Int) (s : Bool) (d : Option Int),
      task.status = TaskStatus.cancelled →
      process_entry task st now s d elapsed = (task, none, DispatchAction.skipCancelled)) := by
  refine ⟨?_, ?_, ?_, ?_⟩
  · intro h
    simp [cancel_task, h]
  · intro task hl h1 h2
    simp [cancel_task, hl, h1, h2]
  · intro task hl h
    have hc : cancel_task mgr name =
        (setTask mgr name { task with status := TaskStatus.cancelled }, true) := by
      simp [cancel_task, hl, h]
    refine ⟨hc, ?_⟩
    rw [hc]
    exact lookup_map_replace _ hl
  · intro task st now elapsed s d h
    simp [process_entry, h]

/-- Witness for `c5_cancellation`: cancelling the `PENDING` task `"p"` of
`c5mgr` sets its status to `CANCELLED` and returns `true`. -/
theorem c5_cancellation_witness :
    cancel_task c5mgr "p" =
      (setTask c5mgr "p" { mkTask "p" 3 0 0 0 with status := TaskStatus.cancelled }, true) ∧
    lookup (cancel_task c5mgr "p").1.tasks "p" =
      some { mkTask "p" 3 0 0 0 with status := TaskStatus.cancelled } :=
  (c5_cancellation c5mgr "p").2.2.1 (mkTask "p" 3 0 0 0) (by decide) (Or.inl (by decide))

/-! ### C6 — uniqueness of registration -/

/-- Claim C6: `add_task` on a name already in the registry returns `false` and
leaves the whole manager state unchanged; on a fresh name it creates a
`PENDING` task, appends it to the registry and enqueues an entry with
`schedule_time = now`, returns `true`, and the registry grows by exactly
one. -/
theorem c6_add_task (mgr : SystemManager) (name : String) (mr : Nat)
    (pr now : Int) (tid : Nat) :
    ((lookup mgr.tasks name).isSome = true →
      add_task mgr name mr pr now tid = (mgr, false)) ∧
    (lookup mgr.tasks name = none →
      add_task mgr name mr pr now tid =
        ({ mgr with
           tasks := mgr.tasks ++ [(name, mkTask name mr pr now tid)]
           task_queue := mgr.task_queue ++ [{ taskName := name, schedule_time := now }] },
         true) ∧
      (mkTask name mr pr now tid).status = TaskStatus.pending ∧
      lookup (add_task mgr name mr pr now tid).1.tasks name =
        some (mkTask name mr pr now tid) ∧
      (add_task mgr name mr pr now tid).1.tasks.length = mgr.tasks.length + 1) := by
  refine ⟨?_, ?_⟩
  · intro h
    simp [add_task, h]
  · intro h
    have he : add_task mgr name mr pr now tid =
        ({ mgr with
           tasks := mgr.tasks ++ [(name, mkTask name mr pr now tid)]
           task_queue := mgr.task_queue ++ [{ taskName := name, schedule_time := now }] },
         true) := by
      simp [add_task, h]
    refine ⟨he, rfl, ?_, ?_⟩
    · rw [he]
      exact lookup_append_right _ (lookup_none_forall h)
    · rw [he]
      simp

/-- Witness for `c6_add_task`: adding `"n"` to the empty manager, then adding
it again: the first call succeeds, the second is rejected with no change. -/
theorem c6_add_task_witness :
    add_task initManager "n" 3 0 7 1 =
      ({ initManager with
         tasks := [("n", mkTask "n" 3 0 7 1)]
         task_queue := [{ taskName := "n", schedule_time := 7 }] },
       true) ∧
    add_task (add_task initManager "n" 3 0 7 1).1 "n" 5 2 9 2 =
      ((add_task initManager "n" 3 0 7 1).1, false) :=
  ⟨((c6_add_task initManager "n" 3 0 7 1).2 rfl).1,
   (c6_add_task (add_task initManager "n" 3 0 7 1).1 "n" 5 2 9 2).1 (by decide)⟩

/-! ### C7 — cleanup scoping -/

/-- The removal test of `clear_completed_tasks`, spelled out: terminal status
and an existing `last_run` strictly before the cutoff. -/
theorem shouldClear_iff (cutoff : Int) (t : Task) :
    shouldClear cutoff t = true ↔
      ((t.status = TaskStatus.completed ∨ t.status = TaskStatus.failed ∨
        t.status = TaskStatus.cancelled) ∧
       ∃ lr, t.last_run = some lr ∧ lr < cutoff) := by
  cases h : t.last_run <;> simp [shouldClear, h, or_assoc]

theorem mem_removedNames_iff (mgr : SystemManager) (cutoff : Int) (n : String) :
    n ∈ (mgr.tasks.filter (fun p => shouldClear cutoff p.2)).map Prod.fst ↔
      ∃ t : Task, (n, t) ∈ mgr.tasks ∧ shouldClear cutoff t = true := by
  constructor
  · intro hmem
    rcases List.mem_map.mp hmem with ⟨p, hp, hn⟩
    rcases List.mem_filter.mp hp with ⟨hm, hc⟩
    refine ⟨p.2, ?_, hc⟩
    rw [← hn, Prod.mk.eta]
    exact hm
  · rintro ⟨t, hm, hc⟩
    exact List.mem_map.mpr ⟨(n, t), List.mem_filter.mpr ⟨hm, hc⟩, rfl⟩

/-- Claim C7: `clear_completed_tasks(H)` keeps exactly the registry entries
that are not (terminal with a `last_run` older than `now - H` hours), returns
the number of removed tasks, removes exactly the stored results of removed
tasks, and touches nothing else (queue, flags, counters unchanged). -/
theorem c7_cleanup (mgr : SystemManager) (now hours : Int) :
    (∀ p : String × Task,
      p ∈ (clear_completed_tasks mgr now hours).1.tasks ↔
        p ∈ mgr.tasks ∧
        ¬ ((p.2.status = TaskStatus.completed ∨ p.2.status = TaskStatus.failed ∨
            p.2.status = TaskStatus.cancelled) ∧
           ∃ lr, p.2.last_run = some lr ∧ lr < now - hours * 3600)) ∧
    ((clear_completed_tasks mgr now hours).2 =
      (mgr.tasks.filter (fun p => shouldClear (now - hours * 3600) p.2)).length) ∧
    (∀ q : String × TaskResult,
      q ∈ (clear_completed_tasks mgr now hours).1.results ↔
        q ∈ mgr.results ∧
        ¬ ∃ t : Task, (q.1, t) ∈ mgr.tasks ∧ shouldClear (now - hours * 3600) t = true) ∧
    (clear_completed_tasks mgr now hours).1.task_queue = mgr.task_queue ∧
    (clear_completed_tasks mgr now hours).1.running = mgr.running ∧
    (clear_completed_tasks mgr now hours).1.shutdown_event = mgr.shutdown_event := by
  refine ⟨?_, ?_, ?_, rfl, rfl, rfl⟩
  · intro p
    rw [← shouldClear_iff]
    simp [clear_completed_tasks, List.mem_filter]
  · simp [clear_completed_tasks]
  · intro q
    rw [← mem_removedNames_iff mgr (now - hours * 3600) q.1]
    simp [clear_completed_tasks, List.mem_filter]

/-- A manager holding one task `"c"` that completed at time 0. -/
def c7mgr : SystemManager :=
  setTask (add_task initManager "c" 3 0 0 0).1 "c"
    { mkTask "c" 3 0 0 0 with status := TaskStatus.completed, last_run := some 0 }

/-- Witness for `c7_cleanup` at a concrete registry: a completed task that
last ran at time 0 is removed at time `now = 7200` with a one-hour cutoff. -/
theorem c7_cleanup_witness :
    (clear_completed_tasks c7mgr 7200 1).2 =
      (c7mgr.tasks.filter (fun p => shouldClear (7200 - 1 * 3600) p.2)).length :=
  (c7_cleanup c7mgr 7200 1).2.1

/-! ### C8 — bounded shutdown -/

/-- Claim C8 (counterexample): with one pool thread stuck inside a work item
that never returns (`inflight = [none]`), `stop(30)` never returns — the model
yields no return time at all, so in particular it does not return within any
constant over the timeout; the running flag is nevertheless already `false`.
The unbounded step is `executor.shutdown(wait=True)` at line 291, which joins
the dispatcher thread blocked inside the work callable. -/
theorem c8_counterexample :
    (stopModel true 30 0 0 [none]).1 = none ∧
    (stopModel true 30 0 0 [some 1, none]).1 = none ∧
    (stopModel true 30 0 0 [none]).2 = false := by
  decide

/-- Claim C8 (amended): `stop(T)` clears the running flag immediately and its
two drain waits are each capped at `T / 2`, but its final
`executor.shutdown(wait=True)` waits for the pool's threads: `stop` returns
iff every in-flight activity eventually finishes, and when it returns after
time `t` with join residue `j`, then `t ≤ T/2 + T/2 + j`.  A work item that
never returns makes `stop` hang forever; whenever `stop` does return (and
also while it hangs), the scheduler is in the not-running state.  On a
manager that is not running, `stop` is an immediate no-op. -/
theorem c8_stop (timeout activeDrain queueDrain : Int) (inflight : List (Option Int)) :
    ((stopModel true timeout activeDrain queueDrain inflight).2 = false) ∧
    ((stopModel true timeout activeDrain queueDrain inflight).1.isSome ↔
      (joinAll inflight).isSome) ∧
    (∀ j t : Int, joinAll inflight = some j →
      (stopModel true timeout activeDrain queueDrain inflight).1 = some t →
      t ≤ timeout / 2 + timeout / 2 + j) ∧
    stopModel false timeout activeDrain queueDrain inflight = (some 0, false) := by
  refine ⟨?_, ?_, ?_, rfl⟩
  · cases hj : joinAll inflight <;> simp [stopModel, hj]
  · cases hj : joinAll inflight <;> simp [stopModel, hj]
  · intro j t hj ht
    simp only [stopModel, hj, if_neg (by simp : ¬ (true = false))] at ht
    have hsum : min activeDrain (timeout / 2) + min queueDrain (timeout / 2) + j = t := by
      simpa using ht
    rw [← hsum]
    exact add_le_add (add_le_add (min_le_right _ _) (min_le_right _ _)) (le_refl j)

/-- Witness for `c8_stop`: a pool whose only in-flight activity finishes after
5 more seconds lets `stop(30)` return after `min 100 15 + min 0 15 + 5 = 20`
seconds, within the `30/2 + 30/2 + 5` bound. -/
theorem c8_stop_witness : (20 : Int) ≤ 30 / 2 + 30 / 2 + 5 :=
  (c8_stop 30 100 0 [some 5]).2.2.1 5 20 (by decide) (by decide)

/-! ### C9 — immortal cancelled tasks -/

/-- Claim C9: a task added and then cancelled while still `PENDING` (never
executed) has `last_run = None`; because the removal test of
`clear_completed_tasks` also requires a non-null `last_run`, no call to
`clear_completed_tasks` — for any `now` and any `older_than_hours` — ever
removes it, even though `CANCELLED` is a terminal status: it stays in the
registry forever. -/
theorem c9_immortal_cancelled (mgr : SystemManager) (name : String) (mr : Nat)
    (pr now : Int) (tid : Nat) (h : lookup mgr.tasks name = none) :
    (cancel_task (add_task mgr name mr pr now tid).1 name).2 = true ∧
    lookup (cancel_task (add_task mgr name mr pr now tid).1 name).1.tasks name =
      some { mkTask name mr pr now tid with status := TaskStatus.cancelled } ∧
    ({ mkTask name mr pr now tid with status := TaskStatus.cancelled } : Task).last_run
      = none ∧
    (∀ cutoff : Int,
      shouldClear cutoff { mkTask name mr pr now tid with status := TaskStatus.cancelled }
        = false) ∧
    (∀ now2 hours : Int,
      lookup (clear_completed_tasks
          (cancel_task (add_task mgr name mr pr now tid).1 name).1 now2 hours).1.tasks name =
        some { mkTask name mr pr now tid with status := TaskStatus.cancelled }) := by
  have hne := lookup_none_forall h
  have hadd : (add_task mgr name mr pr now tid).1 =
      { mgr with
        tasks := mgr.tasks ++ [(name, mkTask name mr pr now tid)]
        task_queue := mgr.task_queue ++ [{ taskName := name, schedule_time := now }] } := by
    simp [add_task, h]
  have hlook1 : lookup (add_task mgr name mr pr now tid).1.tasks name =
      some (mkTask name mr pr now tid) := by
    rw [hadd]
    exact lookup_append_right _ hne
  have hstat : (mkTask name mr pr now tid).status = TaskStatus.pending := rfl
  have hcancel : cancel_task (add_task mgr name mr pr now tid).1 name =
      (setTask (add_task mgr name mr pr now tid).1 name
        { mkTask name mr pr now tid with status := TaskStatus.cancelled }, true) := by
    simp [cancel_task, hlook1, hstat]
  have htasks2 : (cancel_task (add_task mgr name mr pr now tid).1 name).1.tasks =
      mgr.tasks ++ [(name, { mkTask name mr pr now tid with status := TaskStatus.cancelled })] := by
    rw [hcancel]
    show ((add_task mgr name mr pr now tid).1.tasks.map _) = _
    rw [hadd]
    show ((mgr.tasks ++ [(name, mkTask name mr pr now tid)]).map _) = _
    rw [List.map_append, map_replace_of_ne _ hne]
    simp
  have hclearfalse : ∀ cutoff : Int,
      shouldClear cutoff { mkTask name mr pr now tid with status := TaskStatus.cancelled }
        = false := by
    intro cutoff
    simp [shouldClear, mkTask]
  refine ⟨by rw [hcancel], ?_, rfl, hclearfalse, ?_⟩
  · rw [htasks2]
    exact lookup_append_right _ hne
  · intro now2 hours
    show lookup ((cancel_task (add_task mgr name mr pr now tid).1 name).1.tasks.filter _) name
        = _
    rw [htasks2, List.filter_append]
    have hkeep : ([(name, { mkTask name mr pr now tid with status := TaskStatus.cancelled })].filter
        (fun p => !shouldClear (now2 - hours * 3600) p.2)) =
        [(name, { mkTask name mr pr now tid with status := TaskStatus.cancelled })] := by
      simp [hclearfalse]
    rw [hkeep]
    refine lookup_append_right _ ?_
    intro p hp
    exact hne p (List.mem_of_mem_filter hp)

/-- Witness for `c9_immortal_cancelled`: the cancelled, never-run task `"z"`
survives `clear_completed_tasks` even a million seconds later with a zero-hour
cutoff. -/
theorem c9_immortal_cancelled_witness :
    lookup (clear_completed_tasks
        (cancel_task (add_task initManager "z" 3 0 0 0).1 "z").1 1000000 0).1.tasks "z" =
      some { mkTask "z" 3 0 0 0 with status := TaskStatus.cancelled } :=
  (c9_immortal_cancelled initManager "z" 3 0 0 0 rfl).2.2.2.2 1000000 0

/-! ### C10 — stale retry metadata on success -/

/-- The task `"t"` as created at time 0. -/
def c10task0 : Task := mkTask "t" 3 0 0 7

/-- Manager right after `add_task("t")` at time 0. -/
def c10mgr1 : SystemManager := (add_task initManager "t" 3 0 0 7).1

/-- First attempt at time 10: the work raises. -/
def c10run1 : Task × TaskResult := execute_task c10task0 false none 10 0

/-- The retry policy reschedules: `retry_count = 1`, `next_retry = 12`. -/
def c10handled : Task × Option QueueEntry := handle_failed_task c10run1.1 10 false

/-- Manager after the failed attempt is bookkept (result stored at line 233,
task state updated by `handle_failed_task`). -/
def c10mgr2 : SystemManager := storeResult (setTask c10mgr1 "t" c10handled.1) "t" c10run1.2

/-- Second attempt at time 12 (the retry's schedule time): the work succeeds. -/
def c10run2 : Task × TaskResult := execute_task c10handled.1 true none 12 0

/-- Manager after the successful attempt is bookkept. -/
def c10mgr3 : SystemManager := storeResult (setTask c10mgr2 "t" c10run2.1) "t" c10run2.2

/-- The snapshot `get_task_status("t")` returns afterwards: status `COMPLETED`
with the stale `retry_count = 1` and `next_retry = 12` still present. -/
def c10view : TaskStatusView :=
  { name := "t"
    status := TaskStatus.completed
    retry_count := 1
    max_retries := 3
    priority := 0
    created_at := 0
    last_run := some 12
    next_retry := some 12
    result := some { success := true
                     data := none
                     error := none
                     timestamp := 12
                     execution_time := some 0 } }

/-- Claim C10: a successful `execute_task` changes only `status` (through
`RUNNING` to `COMPLETED`) and `last_run`, keeping `retry_count` and
`next_retry`; no operation resets `next_retry` to null (`execute_task` keeps
it, `handle_failed_task` only overwrites it with a new time, `cancel_task`
only ever changes the status field); and in the concrete run where task `"t"`
fails at time 10, is rescheduled for 12, and succeeds at 12, `get_task_status`
afterwards reports status `COMPLETED` together with `retry_count = 1` and the
non-null `next_retry = 12` — a timestamp lying in the past for any query at
time 13 or later. -/
theorem c10_stale_retry_metadata :
    (∀ (task : Task) (d : Option Int) (now elapsed : Int),
      (execute_task task true d now elapsed).1 =
        { task with status := TaskStatus.completed, last_run := some now }) ∧
    (∀ (task : Task) (r : Int) (s : Bool) (d : Option Int) (now elapsed : Int),
      task.next_retry = some r → (execute_task task s d now elapsed).1.next_retry = some r) ∧
    (∀ (task : Task) (now : Int) (sh : Bool),
      task.next_retry ≠ none → (handle_failed_task task now sh).1.next_retry ≠ none) ∧
    (∀ (mgr : SystemManager) (name : String),
      (cancel_task mgr name).1 = mgr ∨
      ∃ task : Task, lookup mgr.tasks name = some task ∧
        (cancel_task mgr name).1 =
          setTask mgr name { task with status := TaskStatus.cancelled }) ∧
    get_task_status c10mgr3 "t" = some c10view ∧
    c10view.next_retry = some 12 ∧ c10view.status = TaskStatus.completed ∧ (12 : Int) < 13 := by
  refine ⟨?_, ?_, ?_, ?_, by decide, rfl, rfl, by decide⟩
  · intro task d now elapsed
    rfl
  · intro task r s d now elapsed hr
    cases s <;> simp [execute_task, hr]
  · intro task now sh hr
    simp only [handle_failed_task]
    split_ifs <;> simp [hr]
  · intro mgr name
    cases hl : lookup mgr.tasks name with
    | none => left; simp [cancel_task, hl]
    | some task =>
      by_cases hs : task.status = TaskStatus.pending ∨ task.status = TaskStatus.retry
      · right
        exact ⟨task, rfl, by simp [cancel_task, hl, hs]⟩
      · left
        simp [cancel_task, hl, hs]

/-- Witness for `c10_stale_retry_metadata`: the successful second attempt on
the once-retried task keeps `next_retry = 12`. -/
theorem c10_stale_retry_metadata_witness :
    (execute_task c10handled.1 true none 12 0).1.next_retry = some 12 :=
  c10_stale_retry_metadata.2.1 c10handled.1 12 true none 12 0 (by decide)

end Dwh
